import Mathlib

/-!
Shallow embedding of the ascii_artinator web front-end
(src/ascii_artinator_web/src/main.rs, a yew single-page app).

Modelling choices:
* The build-time environment value read by the Rust macro invocation of
  option_env for AA_ENDPOINT is passed around explicitly as an
  `Option String` argument named `aaEndpoint`.
* The outbound HTTP request built by gloo (`Request::get(...).query(...)`)
  is a record of method, url and query-parameter list.
* The network is a pure function `NetBehavior : Request → SendResult`
  giving, for each request, the outcome of awaiting its send: either a
  completed `Response` (success flag plus the outcome of decoding the body
  as text) or a transport error message. This is the "fixed stub behavior"
  of the spec's testable properties.
* `App.update` returns, besides the mutated `App`, the list of
  `do_request` futures handed to `ctx.link().send_future` during the step
  (identified by the `img_url` argument each future was created with) and
  the boolean redraw flag the Rust method returns.
* A rendered view (the yew `Html` of each branch of
  `BrailleDisplay::view`) is a single div, modelled by its CSS class name
  and its text content.
-/

/-- Mirrors the Rust fn get_endpoint: the API endpoint is the build-time
environment value AA_ENDPOINT when set, defaulting to "/braille". -/
def get_endpoint (aaEndpoint : Option String) : String :=
  aaEndpoint.getD "/braille"

/-- Mirrors the Rust enum BrailleState: the states the Braille display can
be in (the spec calls them Idle, Pending, Result and Failure). -/
inductive BrailleState
  | Waiting
  | Requesting
  | Showing (s : String)
  | Error (s : String)
  deriving DecidableEq, Repr

/-- Mirrors the Rust struct BrailleProps: the property block of the
BrailleDisplay component. -/
structure BrailleProps where
  state : BrailleState
  deriving DecidableEq, Repr

/-- A rendered view: one div with a CSS class and its text content. -/
structure Html where
  className : String
  text : String
  deriving DecidableEq, Repr

/-- Mirrors BrailleDisplay::view: matches on the state property and
produces one of four views. -/
def BrailleDisplay.view (props : BrailleProps) : Html :=
  match props.state with
  | BrailleState.Waiting => { className := "waiting", text := "" }
  | BrailleState.Requesting => { className := "waiting", text := "Loading..." }
  | BrailleState.Showing s => { className := "braille", text := s }
  | BrailleState.Error s => { className := "error", text := s }

/-- Mirrors the Rust struct App: the URL currently in the form and the
state for the Braille component. -/
structure App where
  url : String
  state : BrailleState
  deriving DecidableEq, Repr

/-- Mirrors the Rust enum AppMsg: the messages the app can send itself. -/
inductive AppMsg
  | UrlChange (s : String)
  | GenBraille
  | SetBrailleState (bs : BrailleState)
  deriving DecidableEq, Repr

/-- An outbound HTTP request as built by gloo:
method, url, and the list of query parameters. -/
structure Request where
  method : String
  url : String
  query : List (String × String)
  deriving DecidableEq, Repr

/-- Outcome of awaiting resp.text(): the body decoded as text, or the
to_string of a decode error. -/
inductive TextResult
  | ok (s : String)
  | err (e : String)
  deriving DecidableEq, Repr

/-- A completed HTTP response: whether the status is a success (resp.ok())
and the outcome of decoding the body as text. -/
structure Response where
  ok : Bool
  text : TextResult
  deriving DecidableEq, Repr

/-- Outcome of awaiting Request::send(): a completed response, or the
to_string of a transport error. -/
inductive SendResult
  | Ok (resp : Response)
  | Err (err : String)
  deriving DecidableEq, Repr

/-- A fixed behavior of the network (the stub endpoint of the spec):
what awaiting the send of each request yields. -/
abbrev NetBehavior : Type := Request → SendResult

/-- The request built inside do_request:
Request::get(get_endpoint()) with query parameters [("img_url", img_url)]. -/
def builtRequest (aaEndpoint : Option String) (img_url : String) : Request :=
  { method := "GET"
    url := get_endpoint aaEndpoint
    query := [("img_url", img_url)] }

/-- Mirrors the Rust async fn do_request: build and send the GET request,
map the completed call to a BrailleState exactly as the Rust match does,
and wrap it in AppMsg.SetBrailleState. -/
def do_request (aaEndpoint : Option String) (img_url : String)
    (net : NetBehavior) : AppMsg :=
  let req := net (builtRequest aaEndpoint img_url)
  let bs : BrailleState :=
    match req with
    | SendResult.Ok resp =>
        if resp.ok then
          match resp.text with
          | TextResult.ok s => BrailleState.Showing s
          | TextResult.err e => BrailleState.Error e
        else
          match resp.text with
          | TextResult.ok s => BrailleState.Error s
          | TextResult.err e => BrailleState.Error e
    | SendResult.Err err => BrailleState.Error err
  AppMsg.SetBrailleState bs

/-- Result of one App::update step: the mutated App, the img_url arguments
of the do_request futures handed to send_future during the step, and the
returned redraw flag. -/
structure UpdateResult where
  app : App
  futures : List String
  redraw : Bool
  deriving DecidableEq, Repr

/-- Mirrors Component::create for App. -/
def App.create : App :=
  { url := "", state := BrailleState.Waiting }

/-- Mirrors Component::update for App. -/
def App.update (a : App) (msg : AppMsg) : UpdateResult :=
  match msg with
  | AppMsg.UrlChange s =>
      { app := { a with url := s }, futures := [], redraw := true }
  | AppMsg.GenBraille =>
      { app := { a with state := BrailleState.Requesting }
        futures := [a.url]
        redraw := true }
  | AppMsg.SetBrailleState bs =>
      { app := { a with state := bs }, futures := [], redraw := true }

/-- One complete submit cycle: process GenBraille (which issues the
do_request future with the url cloned at update time), then process the
SetBrailleState message that future resolves to. -/
def submitCycle (aaEndpoint : Option String) (net : NetBehavior)
    (a : App) : App :=
  (App.update (App.update a AppMsg.GenBraille).app
      (do_request aaEndpoint a.url net)).app

/-- Stub endpoint used as concrete instance: always HTTP 200 (success)
with the braille body from the spec's testable properties. -/
def stubBrailleOk : NetBehavior :=
  fun _ => SendResult.Ok { ok := true, text := TextResult.ok "⠃⠗⠁⠊⠇⠇⠑" }

/-- Helper: whatever the network does, do_request yields a SetBrailleState
message whose payload is a Showing or Error state. -/
theorem do_request_cases (aaEndpoint : Option String) (img_url : String)
    (net : NetBehavior) :
    ∃ bs, do_request aaEndpoint img_url net = AppMsg.SetBrailleState bs ∧
      ((∃ s, bs = BrailleState.Showing s) ∨ (∃ s, bs = BrailleState.Error s)) := by
  cases h : net (builtRequest aaEndpoint img_url) with
  | Err e =>
      exact ⟨BrailleState.Error e, by simp [do_request, h], Or.inr ⟨e, rfl⟩⟩
  | Ok resp =>
      rcases resp with ⟨ok, text⟩
      cases ok <;> cases text
      next s =>
        exact ⟨BrailleState.Error s, by simp [do_request, h], Or.inr ⟨s, rfl⟩⟩
      next e =>
        exact ⟨BrailleState.Error e, by simp [do_request, h], Or.inr ⟨e, rfl⟩⟩
      next s =>
        exact ⟨BrailleState.Showing s, by simp [do_request, h], Or.inl ⟨s, rfl⟩⟩
      next e =>
        exact ⟨BrailleState.Error e, by simp [do_request, h], Or.inr ⟨e, rfl⟩⟩

/-- Claim C1: for every completed network call, the resulting display
state is determined by the response: transport failure gives
Error(transport message); a completed call with non-success status gives
Error(body text); a completed call with success status gives
Showing(body text); and a body that cannot be decoded as text gives
Error(decode error message) in either case. -/
theorem c1_response_determines_state (aaEndpoint : Option String)
    (img_url : String) (net : NetBehavior) :
    (∀ e, net (builtRequest aaEndpoint img_url) = SendResult.Err e →
        do_request aaEndpoint img_url net
          = AppMsg.SetBrailleState (BrailleState.Error e)) ∧
    (∀ r s, net (builtRequest aaEndpoint img_url) = SendResult.Ok r →
        r.ok = true → r.text = TextResult.ok s →
        do_request aaEndpoint img_url net
          = AppMsg.SetBrailleState (BrailleState.Showing s)) ∧
    (∀ r s, net (builtRequest aaEndpoint img_url) = SendResult.Ok r →
        r.ok = false → r.text = TextResult.ok s →
        do_request aaEndpoint img_url net
          = AppMsg.SetBrailleState (BrailleState.Error s)) ∧
    (∀ r e, net (builtRequest aaEndpoint img_url) = SendResult.Ok r →
        r.text = TextResult.err e →
        do_request aaEndpoint img_url net
          = AppMsg.SetBrailleState (BrailleState.Error e)) := by
  refine ⟨?_, ?_, ?_, ?_⟩
  · intro e h
    simp [do_request, h]
  · intro r s h hok ht
    simp [do_request, h, hok, ht]
  · intro r s h hok ht
    simp [do_request, h, hok, ht]
  · intro r e h ht
    cases hok : r.ok <;> simp [do_request, h, hok, ht]

/-- Witness for C1: the spec's stub endpoint (HTTP 200, braille body)
resolves to Showing of that body. -/
theorem c1_witness :
    do_request none "http://example.com/cat.png" stubBrailleOk
      = AppMsg.SetBrailleState (BrailleState.Showing "⠃⠗⠁⠊⠇⠇⠑") :=
  (c1_response_determines_state none "http://example.com/cat.png"
      stubBrailleOk).2.1
    { ok := true, text := TextResult.ok "⠃⠗⠁⠊⠇⠇⠑" } "⠃⠗⠁⠊⠇⠇⠑" rfl rfl rfl

/-- Counterexample to claim C2: with the display state already
Requesting (Pending), a further GenBraille submit still issues a new
do_request future, contradicting "a further submit issues no new
request". -/
theorem c2_counterexample :
    ¬ ((App.update { url := "u", state := BrailleState.Requesting }
        AppMsg.GenBraille).futures = []) := by
  simp [App.update]

/-- Claim C2 (amended): the GenBraille submit handler unconditionally sets
the display state to Requesting (Pending) and issues exactly one
asynchronous request carrying the current url, regardless of the current
display state; in particular a further submit while already Requesting
issues one more request and the display state remains Requesting. -/
theorem c2_submit_always_issues_request (a : App) :
    (App.update a AppMsg.GenBraille).app.state = BrailleState.Requesting ∧
    (App.update a AppMsg.GenBraille).futures = [a.url] :=
  ⟨rfl, rfl⟩

/-- Claim C3: for every stored url and current display state, processing
GenBraille sets the display state to Requesting (Pending) within the
update step itself, before any network result is processed. -/
theorem c3_submit_sets_pending_synchronously (a : App) :
    (App.update a AppMsg.GenBraille).app.state = BrailleState.Requesting :=
  rfl

/-- Claim C4: every message produced by a completed request is a
SetBrailleState carrying a Showing or Error state, never Waiting or
Requesting; hence a full submit cycle ends in a Showing or Error state. -/
theorem c4_completion_is_result_or_failure (aaEndpoint : Option String)
    (img_url : String) (net : NetBehavior) (a : App) :
    (∃ bs, do_request aaEndpoint img_url net = AppMsg.SetBrailleState bs ∧
        bs ≠ BrailleState.Waiting ∧ bs ≠ BrailleState.Requesting ∧
        ((∃ s, bs = BrailleState.Showing s) ∨
         (∃ s, bs = BrailleState.Error s))) ∧
    ((∃ s, (submitCycle aaEndpoint net a).state = BrailleState.Showing s) ∨
     (∃ s, (submitCycle aaEndpoint net a).state = BrailleState.Error s)) := by
  constructor
  · obtain ⟨bs, heq, hcase⟩ := do_request_cases aaEndpoint img_url net
    refine ⟨bs, heq, ?_, ?_, hcase⟩ <;>
      rcases hcase with ⟨s, rfl⟩ | ⟨s, rfl⟩ <;> simp
  · obtain ⟨bs, heq, hcase⟩ := do_request_cases aaEndpoint a.url net
    have : (submitCycle aaEndpoint net a).state = bs := by
      simp [submitCycle, heq, App.update]
    rw [this]
    exact hcase

/-- Claim C5: the renderer is a pure total function of the display state
mapping its four cases to four mutually exclusive views: the empty
waiting placeholder for Waiting, the loading indicator with literal text
"Loading..." for Requesting, the result text in the braille container for
Showing, and the error text in the error container for Error. -/
theorem c5_view_four_exclusive_cases :
    (BrailleDisplay.view { state := BrailleState.Waiting }
        = { className := "waiting", text := "" }) ∧
    (BrailleDisplay.view { state := BrailleState.Requesting }
        = { className := "waiting", text := "Loading..." }) ∧
    (∀ s, BrailleDisplay.view { state := BrailleState.Showing s }
        = { className := "braille", text := s }) ∧
    (∀ s, BrailleDisplay.view { state := BrailleState.Error s }
        = { className := "error", text := s }) ∧
    (BrailleDisplay.view { state := BrailleState.Waiting }
        ≠ BrailleDisplay.view { state := BrailleState.Requesting }) ∧
    (∀ s, BrailleDisplay.view { state := BrailleState.Waiting }
        ≠ BrailleDisplay.view { state := BrailleState.Showing s }) ∧
    (∀ s, BrailleDisplay.view { state := BrailleState.Waiting }
        ≠ BrailleDisplay.view { state := BrailleState.Error s }) ∧
    (∀ s, BrailleDisplay.view { state := BrailleState.Requesting }
        ≠ BrailleDisplay.view { state := BrailleState.Showing s }) ∧
    (∀ s, BrailleDisplay.view { state := BrailleState.Requesting }
        ≠ BrailleDisplay.view { state := BrailleState.Error s }) ∧
    (∀ s t, BrailleDisplay.view { state := BrailleState.Showing s }
        ≠ BrailleDisplay.view { state := BrailleState.Error t }) := by
  refine ⟨rfl, rfl, fun s => rfl, fun s => rfl, ?_, ?_, ?_, ?_, ?_, ?_⟩ <;>
    simp [BrailleDisplay.view]

/-- Claim C6: at creation the display state is Waiting (Idle) and the
stored url is empty, and rendering this initial state yields the empty
placeholder view, distinct from the loading, result and error views. -/
theorem c6_initial_state_renders_placeholder :
    App.create.state = BrailleState.Waiting ∧
    App.create.url = "" ∧
    BrailleDisplay.view { state := App.create.state }
        = { className := "waiting", text := "" } ∧
    BrailleDisplay.view { state := App.create.state }
        ≠ BrailleDisplay.view { state := BrailleState.Requesting } ∧
    (∀ s, BrailleDisplay.view { state := App.create.state }
        ≠ BrailleDisplay.view { state := BrailleState.Showing s }) ∧
    (∀ s, BrailleDisplay.view { state := App.create.state }
        ≠ BrailleDisplay.view { state := BrailleState.Error s }) := by
  refine ⟨rfl, rfl, rfl, ?_, ?_, ?_⟩ <;>
    simp [BrailleDisplay.view, App.create]

/-- Helper: folding UrlChange updates over a list of typed inputs stores
the last input (or keeps the starting url when the list is empty) and
never touches the display state. -/
theorem foldl_urlchange (inputs : List String) :
    ∀ a : App,
      ((inputs.foldl
          (fun acc t => (App.update acc (AppMsg.UrlChange t)).app) a).url
        = inputs.getLastD a.url) ∧
      ((inputs.foldl
          (fun acc t => (App.update acc (AppMsg.UrlChange t)).app) a).state
        = a.state) := by
  induction inputs with
  | nil => intro a; exact ⟨rfl, rfl⟩
  | cons x xs ih =>
      intro a
      rw [List.foldl_cons, List.getLastD_cons]
      exact ih { a with url := x }

/-- Claim C7: UrlChange replaces the stored url, leaves the display state
unchanged and issues no request; consequently, after any further sequence
of typed inputs the stored url equals the most recently entered value. -/
theorem c7_urlchange_stores_last_value (a : App) (s : String)
    (inputs : List String) :
    (App.update a (AppMsg.UrlChange s)).app.url = s ∧
    (App.update a (AppMsg.UrlChange s)).app.state = a.state ∧
    (App.update a (AppMsg.UrlChange s)).futures = [] ∧
    ((inputs.foldl
        (fun acc t => (App.update acc (AppMsg.UrlChange t)).app)
        (App.update a (AppMsg.UrlChange s)).app).url
      = inputs.getLastD s) := by
  refine ⟨rfl, rfl, rfl, ?_⟩
  exact (foldl_urlchange inputs (App.update a (AppMsg.UrlChange s)).app).1

/-- Claim C8: the issued request is a single GET to the configured
endpoint with exactly one query parameter img_url holding the stored url;
the endpoint defaults to "/braille" and equals the build-time override
when one is supplied, and is the same for every request of the process. -/
theorem c8_request_shape_and_endpoint (aaEndpoint : Option String)
    (img_url : String) :
    (builtRequest aaEndpoint img_url).method = "GET" ∧
    (builtRequest aaEndpoint img_url).query = [("img_url", img_url)] ∧
    (builtRequest aaEndpoint img_url).url = get_endpoint aaEndpoint ∧
    get_endpoint none = "/braille" ∧
    (∀ e, get_endpoint (some e) = e) ∧
    (∀ u1 u2 : String,
        (builtRequest aaEndpoint u1).url = (builtRequest aaEndpoint u2).url) :=
  ⟨rfl, rfl, rfl, rfl, fun _ => rfl, fun _ _ => rfl⟩

/-- Claim C9: a submit cycle leaves the stored url unchanged, and with the
same url and the same fixed network behavior a second complete submit
cycle ends in the same display state as the first: the final state is
determined by the response alone. -/
theorem c9_idempotent_submission (aaEndpoint : Option String)
    (net : NetBehavior) (a : App) :
    (submitCycle aaEndpoint net a).url = a.url ∧
    (submitCycle aaEndpoint net (submitCycle aaEndpoint net a)).state
      = (submitCycle aaEndpoint net a).state :=
  ⟨rfl, rfl⟩

/-- Claim C10: App.update returns redraw flag true for every message, so a
re-render is triggered after every processed message. -/
theorem c10_update_always_redraws (a : App) (msg : AppMsg) :
    (App.update a msg).redraw = true := by
  cases msg <;> rfl
